import Mathlib

/-!
Verification of `check_hbase_cell.py` (Nagios plugin checking an HBase cell
value over Thrift) against its natural-language specification.

The script's own logic (`run`, `connect`, `get_tables`, `check_cell`,
`output_perfdata`) is embedded shallowly below.  External collaborators
(the happybase client, the `re` module, and the `harisekhon` pylib that is
not part of this repository's sources) are modelled as explicit inputs or,
where the spec describes them, as definitions marked `Modelled from the
spec`.
-/

set_option maxHeartbeats 1600000

namespace CheckHBaseCell

/-- Nagios check status, as used by `qquit` / `NagiosPlugin`. -/
inductive Status where
  | OK
  | WARNING
  | CRITICAL
  | UNKNOWN
deriving DecidableEq, Repr

/-- The `ERRORS` exit-code table from the harisekhon utils:
OK=0, WARNING=1, CRITICAL=2, UNKNOWN=3. -/
def ERRORS : Status → Nat
  | .OK => 0
  | .WARNING => 1
  | .CRITICAL => 2
  | .UNKNOWN => 3

/-! ### Character and string helpers used by the embedding -/

/-- The decimal digit character for `m` (meaningful for `m < 10`). -/
def digitChar (m : Nat) : Char := Char.ofNat (48 + m)

/-- Fuel-driven rendering of a natural number in decimal
(most significant digit first); `natChars` supplies enough fuel. -/
def natCharsAux : Nat → Nat → List Char
  | 0, _ => []
  | f + 1, n => if n < 10 then [digitChar n] else natCharsAux f (n / 10) ++ [digitChar (n % 10)]

/-- Decimal rendering of a natural number. -/
def natChars (n : Nat) : List Char := natCharsAux (n + 1) n

/-- `fracDigits k m` renders `m` as exactly `k` decimal digits
(left-padded with zeros), as the fractional part of a fixed-point number. -/
def fracDigits : Nat → Nat → List Char
  | 0, _ => []
  | k + 1, m => fracDigits k (m / 10) ++ [digitChar (m % 10)]

/-- Split a character list at every occurrence of `sep`
(the list analogue of Python's `str.split(sep)`). -/
def splitOnChar (sep : Char) : List Char → List (List Char)
  | [] => [[]]
  | x :: xs =>
    let r := splitOnChar sep xs
    if x = sep then [] :: r
    else
      match r with
      | [] => [[x]]
      | y :: ys => (x :: y) :: ys

/-- Does `pat` occur as a contiguous sublist of `s`?
(Models Python's `in` operator on strings.) -/
def isInfixL (pat : List Char) : List Char → Bool
  | [] => pat.isEmpty
  | c :: t => pat.isPrefixOf (c :: t) || isInfixL pat t

/-- Does `pat` occur as a substring of `s`? (Python `pat in s`.) -/
def containsSub (s pat : String) : Bool := isInfixL pat.data s.data

/-- Number of newline characters in a string: the number of
`\n`-terminated lines the string contributes to standard output. -/
def lineCount (s : String) : Nat := s.data.count '\n'

/-- A string free of newline characters. -/
def nlFree (s : String) : Prop := s.data.count '\n' = 0

/-- An optional string whose content (if any) is newline-free. -/
def optNlFree : Option String → Prop
  | none => True
  | some s => nlFree s

/-- A character list free of the space character. -/
def spaceFreeL (l : List Char) : Prop := ∀ c ∈ l, c ≠ ' '

/-- An optional string whose content (if any) is space-free. -/
def optSpaceFree : Option String → Prop
  | none => True
  | some s => spaceFreeL s.data

/-! ### Numeric parsing and rendering -/

/-- Numeric value of a list of decimal digit characters. -/
def natOfDigits (l : List Char) : Nat :=
  l.foldl (fun a c => a * 10 + (c.toNat - 48)) 0

/-- Parse an unsigned decimal literal (`123` or `123.45`) as a rational. -/
def parseUnsignedL (l : List Char) : Option ℚ :=
  match splitOnChar '.' l with
  | [ip] =>
    if ip.all Char.isDigit && !ip.isEmpty then
      some (Rat.divInt (Int.ofNat (natOfDigits ip)) 1)
    else none
  | [ip, fp] =>
    if ip.all Char.isDigit && !ip.isEmpty && fp.all Char.isDigit && !fp.isEmpty then
      some (Rat.divInt (Int.ofNat (natOfDigits ip * 10 ^ fp.length + natOfDigits fp))
        (Int.ofNat (10 ^ fp.length)))
    else none
  | _ => none

/-- Parse an optionally signed decimal literal as a rational. -/
def parseFloatL : List Char → Option ℚ
  | [] => none
  | c :: rest =>
    if c = '-' then (parseUnsignedL rest).map (fun q => -q)
    else if c = '+' then parseUnsignedL rest
    else parseUnsignedL (c :: rest)

/-- Modelled from the spec: the pylib's `isFloat` duck test (the pylib is not
under `src/`); per the spec a value "is `isNumeric=true` iff it parses
losslessly as a floating-point number (no partial-numeric strings)".
Modelled as a strict signed-decimal parse over the rationals. -/
def isFloat (s : String) : Bool := (parseFloatL s.data).isSome

/-- The numeric value of a string that passed `isFloat` (0 otherwise). -/
def parseFloatD (s : String) : ℚ := (parseFloatL s.data).getD 0

/-- Fixed-point rendering of a rational with `prec` digits after the decimal
point: the embedding of Python's `'{0:0.{1}f}'.format(x, prec)` applied to the
measured durations (rounding of exact halves is half-up on this rational
model). -/
def formatFixed (x : ℚ) (prec : Nat) : String :=
  let n : ℤ := Int.fdiv (2 * x.num * Int.ofNat (10 ^ prec) + x.den) (2 * x.den)
  let sgn : List Char := if n < 0 then ['-'] else []
  let m := n.natAbs
  if prec = 0 then String.mk (sgn ++ natChars m)
  else String.mk (sgn ++ natChars (m / 10 ^ prec) ++ '.' :: fracDigits prec (m % 10 ^ prec))

/-! ### Thresholds (external pylib, modelled from the spec) -/

/-- Modelled from the spec: a parsed threshold range (`Threshold`'s `Range`,
from the pylib's `add_thresholds`/`validate_thresholds`, not under `src/`):
`lowerBound` (default 0), `upperBound` (`none` = +∞), and `invert`
(leading `@`: alert if the value is INSIDE the range). -/
structure RangeSpec where
  low : ℚ
  high : Option ℚ
  invert : Bool
deriving DecidableEq

/-- Modelled from the spec: parsing of a threshold spec `[@]low:high`
(either bound omissible; `low` defaults to 0, `high` to +∞;
`low > high` is a parse error; a leading `@` sets `invert`). -/
def parseRangeCore (inv : Bool) (l : List Char) : Option RangeSpec :=
  match splitOnChar ':' l with
  | [lo, hi] =>
    match (if lo.isEmpty then some 0 else parseFloatL lo) with
    | none => none
    | some lq =>
      if hi.isEmpty then some ⟨lq, none, inv⟩
      else
        match parseFloatL hi with
        | none => none
        | some hq => if lq > hq then none else some ⟨lq, some hq, inv⟩
  | _ => none

/-- Modelled from the spec: parse a textual threshold spec, handling the
optional leading `@` (inversion marker). -/
def parseRange (s : String) : Option RangeSpec :=
  match s.data with
  | '@' :: t => parseRangeCore true t
  | l => parseRangeCore false l

/-- Modelled from the spec: range evaluation — for a non-inverted range a
breach occurs when the value lies outside `[low, high]`; for an inverted
range, when it lies inside. -/
def rangeBreach (r : RangeSpec) (v : ℚ) : Bool :=
  let outside := (v < r.low) || (match r.high with | some h => v > h | none => false)
  if r.invert then !outside else outside

/-- Modelled from the spec: the pylib's `check_thresholds` (not under
`src/`) — evaluates the critical range and then the warning range against a
numeric value; CRITICAL takes precedence over WARNING; an absent or
unparseable spec never breaches. -/
def check_thresholds (warnSpec critSpec : Option String) (v : ℚ) : Status :=
  let breach := fun (os : Option String) =>
    match os with
    | none => false
    | some s =>
      match parseRange s with
      | none => false
      | some r => rangeBreach r v
  if breach critSpec then .CRITICAL
  else if breach warnSpec then .WARNING
  else .OK

/-- Modelled from the spec: the pylib's `support_msg_api` (not under
`src/`) — the message suffix pointing the operator at filing a support
report for a protocol/contract violation. -/
def support_msg_api : String :=
  "API may have changed. Please try latest version, and if problem persists raise a support request ticket"

/-- Modelled from the spec: the pylib's `get_perf_thresholds` (not under
`src/`) — the `;warn;crit` threshold fields appended to a perfdata token
(empty fields for absent specs). -/
def get_perf_thresholds (warnSpec critSpec : Option String) : String :=
  ";" ++ warnSpec.getD "" ++ ";" ++ critSpec.getD ""

/-! ### The embedded script -/

/-- The duck-typed result of `table.cells(...)`: the pylib's `isList` probe
distinguishes an actual list from anything else. -/
inductive CellsVal where
  | list (cells : List String)
  | nonList
deriving DecidableEq

/-- How the `try` block of `check_cell` (lines 169–189 of the script)
resolves: the table is disabled, an `HBaseIOError` is raised, a socket
timeout / Thrift exception is raised, or `table.cells` returns and the
connection is then closed (line 179). -/
inductive TryResult where
  | disabled
  | hbaseError (message : String)
  | transportError (errStr : String)
  | cellsReturned (cv : CellsVal)
deriving DecidableEq

/-- Whether the `try` block got past the `cells` query (the only path on
which line 179's `self.conn.close()` runs). -/
def queryCompleted : TryResult → Bool
  | .cellsReturned _ => true
  | _ => false

/-- How a call of `check_cell` ends: a `qquit(status, msg)` process exit, or
a normal return of `(value, query_time)` with `self.msg` set. -/
inductive CheckOutcome where
  | exited (st : Status) (msg : String)
  | returned (value : String) (msg : String)
deriving DecidableEq

/-- Result of `check_cell` together with whether `self.conn.close()` was
executed before the outcome. -/
structure CheckCellResult where
  outcome : CheckOutcome
  connClosed : Bool
deriving DecidableEq

/-- `cell_info` (line 191): `"HBase table '{0}' row '{1}' column '{2}'"`. -/
def cell_info (table row column : String) : String :=
  "HBase table '" ++ table ++ "' row '" ++ row ++ "' column '" ++ column ++ "'"

/-- Embedding of `CheckHBaseCell.check_cell` (lines 165–213).
`expected` is `self.expected` (`none` when the option was not given);
`reSearch pat v` models the truthiness of Python's `re.search(pat, v)`
(an unanchored full-pattern search, supplied by the `re` collaborator). -/
def check_cell (table row column : String) (expected : Option String)
    (reSearch : String → String → Bool) (tryRes : TryResult) : CheckCellResult :=
  match tryRes with
  | .disabled =>
    ⟨.exited .CRITICAL ("table '" ++ table ++ "' is not enabled!"), false⟩
  | .hbaseError m =>
    if containsSub m "TableNotFoundException" then
      ⟨.exited .CRITICAL ("table '" ++ table ++ "' does not exist"), false⟩
    else if containsSub m "NoSuchColumnFamilyException" then
      ⟨.exited .CRITICAL ("column family '" ++ column ++ "' does not exist"), false⟩
    else
      ⟨.exited .CRITICAL m, false⟩
  | .transportError e => ⟨.exited .CRITICAL e, false⟩
  | .cellsReturned cv =>
    match cv with
    | .nonList => ⟨.exited .UNKNOWN ("non-list returned for cells. " ++ support_msg_api), true⟩
    | .list cells =>
      let info := cell_info table row column
      match cells with
      | [] =>
        ⟨.exited .CRITICAL
          ("no cell value found in " ++ info ++ ", does row / column family combination exist?"),
          true⟩
      | [value] =>
        let msg := "cell value = '" ++ value ++ "' for " ++ info
        match expected with
        | some pat =>
          if pat ≠ "" then
            if reSearch pat value then ⟨.returned value msg, true⟩
            else
              ⟨.exited .CRITICAL
                ("cell value '" ++ value ++ "' (expected regex '" ++ pat ++ "') for " ++ info),
                true⟩
          else ⟨.returned value msg, true⟩
        | none => ⟨.returned value msg, true⟩
      | _ :: _ :: _ =>
        ⟨.exited .UNKNOWN ("more than one cell returned! " ++ support_msg_api), true⟩

/-- The option state consumed by `output_perfdata`: `self.graph`,
`self.units`, `self.precision` and the two threshold specs. -/
structure PerfConfig where
  graph : Bool
  units : Option String
  precision : Nat
  warnSpec : Option String
  critSpec : Option String
deriving DecidableEq

/-- The status and final `self.msg` produced by `output_perfdata`. -/
structure PerfResult where
  status : Status
  msg : String
deriving DecidableEq

/-- Python truthiness of `self.units` (`if self.units:`). -/
def unitsTruthy : Option String → Bool
  | none => false
  | some u => u ≠ ""

/-- The string appended by `if self.units: self.msg += str(self.units)`. -/
def unitsSuffix (u : Option String) : String :=
  if unitsTruthy u then u.getD "" else ""

/-- Embedding of `CheckHBaseCell.output_perfdata` (lines 215–229): threshold
evaluation for numeric values, the `' | '` separator, the optional graphed
`value=` token (literal `NaN` for non-numeric values), and the two timing
tokens rendered at `self.precision` decimal places. -/
def output_perfdata (cfg : PerfConfig) (msg0 value : String)
    (connect_time query_time : ℚ) : PerfResult :=
  let status := if isFloat value then
      check_thresholds cfg.warnSpec cfg.critSpec (parseFloatD value)
    else Status.OK
  let m1 := msg0 ++ " | "
  let m2 :=
    if cfg.graph then
      if isFloat value then
        m1 ++ ("value=" ++ value) ++ unitsSuffix cfg.units
          ++ get_perf_thresholds cfg.warnSpec cfg.critSpec
      else m1 ++ "value=NaN"
    else m1
  let m3 := m2 ++ (" connect_time=" ++ formatFixed connect_time cfg.precision
    ++ "s query_time=" ++ formatFixed query_time cfg.precision ++ "s")
  ⟨status, m3⟩

/-- How `self.connect()` (lines 145–154) resolves: a connection handle, or a
socket timeout / Thrift exception (which `qquit`s CRITICAL). -/
inductive ConnectResult where
  | ok
  | err (e : String)
deriving DecidableEq

/-- Whether a connection handle was acquired. -/
def connectOk : ConnectResult → Bool
  | .ok => true
  | .err _ => false

/-- How `self.conn.tables()` inside `get_tables` (lines 156–163) resolves. -/
inductive TablesResult where
  | ok (tables : List String)
  | nonList
  | err (e : String)
deriving DecidableEq

/-- The behaviour of the external collaborators during one invocation. -/
structure RunEnv where
  connectRes : ConnectResult
  tablesRes : TablesResult
  tryRes : TryResult
deriving DecidableEq

/-- Observable outcome of one invocation: final status, everything printed
to standard output, and whether `self.conn.close()` ever ran. -/
structure RunOutcome where
  status : Status
  stdout : String
  connClosed : Bool
deriving DecidableEq

/-- Name of a status, as printed in front of the final message. -/
def statusName : Status → String
  | .OK => "OK"
  | .WARNING => "WARNING"
  | .CRITICAL => "CRITICAL"
  | .UNKNOWN => "UNKNOWN"

/-- Modelled from the spec: the final reporting step of the plugin framework
(`qquit` and the end-of-run report live in the external pylib, not under
`src/`): it prints exactly one line — the status and the one-line message —
and exits with `ERRORS[status]`. -/
def statusLine (st : Status) (m : String) : String :=
  statusName st ++ ": " ++ m ++ "\n"

/-- `'\n'.join(tables)`. -/
def joinNl : List String → String
  | [] => ""
  | [t] => t
  | t :: ts => t ++ "\n" ++ joinNl (ts)

/-- Embedding of `CheckHBaseCell.run` (lines 136–143) together with the
terminal report: connect (lines 145–154), then either list mode
(`get_tables`, the multi-line `print`, and `sys.exit(ERRORS['UNKNOWN'])`,
lines 138–141 and 156–163) or `check_cell` followed by `output_perfdata`. -/
def run (listMode : Bool) (table row column : String) (expected : Option String)
    (reSearch : String → String → Bool) (cfg : PerfConfig)
    (connect_time query_time : ℚ) (env : RunEnv) : RunOutcome :=
  match env.connectRes with
  | .err e => ⟨.CRITICAL, statusLine .CRITICAL e, false⟩
  | .ok =>
    if listMode then
      match env.tablesRes with
      | .nonList =>
        ⟨.UNKNOWN, statusLine .UNKNOWN ("table list returned is not a list! " ++ support_msg_api),
          false⟩
      | .err e =>
        ⟨.CRITICAL, statusLine .CRITICAL ("error while trying to get table list: " ++ e), false⟩
      | .ok tables => ⟨.UNKNOWN, "HBase Tables:\n\n" ++ joinNl tables ++ "\n", false⟩
    else
      match check_cell table row column expected reSearch env.tryRes with
      | ⟨.exited st m, closed⟩ => ⟨st, statusLine st m, closed⟩
      | ⟨.returned v m, closed⟩ =>
        let pr := output_perfdata cfg m v connect_time query_time
        ⟨pr.status, statusLine pr.status pr.msg, closed⟩

/-! ### Perfdata token analysis -/

/-- The nonempty space-delimited tokens of a perfdata section. -/
def perfTokens (s : String) : List (List Char) :=
  (splitOnChar ' ' s.data).filter (fun t => !t.isEmpty)

/-- The number of perfdata tokens of the form `value=...`. -/
def countValueTokens (s : String) : Nat :=
  ((splitOnChar ' ' s.data).filter (fun t => "value=".data.isPrefixOf t)).length

/-- The number of characters after the decimal point of a rendered number
(0 when there is no decimal point). -/
def decimalLen (s : String) : Nat :=
  match splitOnChar '.' s.data with
  | [_, fp] => fp.length
  | _ => 0

/-- The messages carried by a `check_cell` outcome are newline-free. -/
def outcomeNlFree : CheckOutcome → Prop
  | .exited _ m => nlFree m
  | .returned v m => nlFree v ∧ nlFree m

/-- The strings supplied by the collaborators inside the `try` block are
newline-free. -/
def tryNlFree : TryResult → Prop
  | .hbaseError m => nlFree m
  | .transportError e => nlFree e
  | .cellsReturned (.list xs) => ∀ v ∈ xs, nlFree v
  | _ => True

/-- A connect failure message is newline-free. -/
def connectNlFree : ConnectResult → Prop
  | .ok => True
  | .err e => nlFree e

/-- All collaborator-supplied strings of an environment are newline-free. -/
def envNlFree (env : RunEnv) : Prop := connectNlFree env.connectRes ∧ tryNlFree env.tryRes

/-! ### Helper lemmas -/

theorem strExt {a b : String} (h : a.data = b.data) : a = b := by
  cases a; cases b; cases h; rfl

theorem splitOnChar_sepFree (sep : Char) (a : List Char) (h : ∀ c ∈ a, c ≠ sep) :
    splitOnChar sep a = [a] := by
  induction a with
  | nil => rfl
  | cons x xs ih =>
    have hx : x ≠ sep := h x (List.mem_cons_self x xs)
    have hxs : splitOnChar sep xs = [xs] := ih (fun c hc => h c (List.mem_cons_of_mem x hc))
    simp [splitOnChar, hx, hxs]

theorem splitOnChar_append (sep : Char) (a rest : List Char) (h : ∀ c ∈ a, c ≠ sep) :
    splitOnChar sep (a ++ sep :: rest) = a :: splitOnChar sep rest := by
  induction a with
  | nil => simp [splitOnChar]
  | cons x xs ih =>
    have hx : x ≠ sep := h x (List.mem_cons_self x xs)
    have hxs := ih (fun c hc => h c (List.mem_cons_of_mem x hc))
    simp [splitOnChar, hx, hxs]

theorem mem_splitOnChar (sep : Char) (l : List Char) (x : Char) (hx : x ∈ l) :
    x = sep ∨ ∃ p ∈ splitOnChar sep l, x ∈ p := by
  induction l with
  | nil => cases hx
  | cons y ys ih =>
    rcases List.mem_cons.mp hx with rfl | hmem
    · by_cases hy : x = sep
      · exact Or.inl hy
      · refine Or.inr ?_
        simp only [splitOnChar, hy, if_false]
        rcases hr : splitOnChar sep ys with _ | ⟨z, zs⟩
        · exact ⟨[x], List.mem_singleton_self _, List.mem_singleton_self _⟩
        · exact ⟨x :: z, List.mem_cons_self _ _, List.mem_cons_self _ _⟩
    · rcases ih hmem with hs | ⟨p, hp, hxp⟩
      · exact Or.inl hs
      · by_cases hy : y = sep
        · refine Or.inr ⟨p, ?_, hxp⟩
          simp only [splitOnChar, hy, if_true]
          exact List.mem_cons_of_mem _ hp
        · refine Or.inr ?_
          simp only [splitOnChar, hy, if_false]
          rcases hr : splitOnChar sep ys with _ | ⟨z, zs⟩
          · rw [hr] at hp; cases hp
          · rw [hr] at hp
            rcases List.mem_cons.mp hp with rfl | hp2
            · exact ⟨y :: p, List.mem_cons_self _ _, List.mem_cons_of_mem _ hxp⟩
            · exact ⟨p, List.mem_cons_of_mem _ hp2, hxp⟩

theorem digitChar_isDigit : ∀ m < 10, (digitChar m).isDigit = true := by decide

theorem natCharsAux_digits : ∀ f n c, c ∈ natCharsAux f n → c.isDigit = true := by
  intro f
  induction f with
  | zero => intro n c hc; cases hc
  | succ f ih =>
    intro n c hc
    by_cases hn : n < 10
    · simp only [natCharsAux, hn, if_true, List.mem_singleton] at hc
      exact hc ▸ digitChar_isDigit n hn
    · simp only [natCharsAux, hn, if_false, List.mem_append, List.mem_singleton] at hc
      rcases hc with hc | rfl
      · exact ih _ _ hc
      · exact digitChar_isDigit _ (Nat.mod_lt n (by omega))

theorem fracDigits_digits : ∀ k m c, c ∈ fracDigits k m → c.isDigit = true := by
  intro k
  induction k with
  | zero => intro m c hc; cases hc
  | succ k ih =>
    intro m c hc
    simp only [fracDigits, List.mem_append, List.mem_singleton] at hc
    rcases hc with hc | rfl
    · exact ih _ _ hc
    · exact digitChar_isDigit _ (Nat.mod_lt m (by omega))

theorem fracDigits_length : ∀ k m, (fracDigits k m).length = k := by
  intro k
  induction k with
  | zero => intro m; rfl
  | succ k ih => intro m; simp [fracDigits, ih]

theorem formatFixed_chars (x : ℚ) (p : Nat) (c : Char) (hc : c ∈ (formatFixed x p).data) :
    c.isDigit = true ∨ c = '.' ∨ c = '-' := by
  unfold formatFixed at hc
  by_cases hp : p = 0 <;>
    simp only [hp, if_true, if_false, List.mem_append, List.mem_cons, List.mem_singleton] at hc
  · rcases hc with hs | hn
    · split at hs
      · simp only [List.mem_singleton] at hs; exact Or.inr (Or.inr hs)
      · cases hs
    · exact Or.inl (natCharsAux_digits _ _ _ hn)
  · rcases hc with (hs | hn) | rfl | hf
    · split at hs
      · simp only [List.mem_singleton] at hs; exact Or.inr (Or.inr hs)
      · cases hs
    · exact Or.inl (natCharsAux_digits _ _ _ hn)
    · exact Or.inr (Or.inl rfl)
    · exact Or.inl (fracDigits_digits _ _ _ hf)

theorem isDigit_ne_space {c : Char} (h : c.isDigit = true) : c ≠ ' ' := by
  intro he; rw [he] at h; exact absurd h (by decide)

theorem isDigit_ne_nl {c : Char} (h : c.isDigit = true) : c ≠ '\n' := by
  intro he; rw [he] at h; exact absurd h (by decide)

theorem isDigit_ne_dot {c : Char} (h : c.isDigit = true) : c ≠ '.' := by
  intro he; rw [he] at h; exact absurd h (by decide)

theorem formatFixed_spaceFree (x : ℚ) (p : Nat) : spaceFreeL (formatFixed x p).data := by
  intro c hc
  rcases formatFixed_chars x p c hc with h | rfl | rfl
  · exact isDigit_ne_space h
  · decide
  · decide

theorem formatFixed_nlFree (x : ℚ) (p : Nat) : (formatFixed x p).data.count '\n' = 0 := by
  rw [List.count_eq_zero]
  intro hc
  rcases formatFixed_chars x p _ hc with h | h | h
  · exact absurd rfl (isDigit_ne_nl h)
  · cases h
  · cases h

theorem parseUnsignedL_chars (l : List Char) (q : ℚ) (h : parseUnsignedL l = some q) :
    ∀ c ∈ l, c.isDigit = true ∨ c = '.' := by
  intro c hc
  unfold parseUnsignedL at h
  rcases hs : splitOnChar '.' l with _ | ⟨ip, _ | ⟨fp, _ | _⟩⟩ <;> rw [hs] at h
  · cases h
  · rcases mem_splitOnChar '.' l c hc with hdot | ⟨p, hp, hcp⟩
    · exact Or.inr hdot
    · rw [hs] at hp
      simp only [List.mem_singleton] at hp
      subst hp
      have h' : (if (p.all Char.isDigit && !p.isEmpty) = true then
          some (Rat.divInt (Int.ofNat (natOfDigits p)) 1) else none) = some q := h
      by_cases hcond : (p.all Char.isDigit && !p.isEmpty) = true
      · simp only [Bool.and_eq_true] at hcond
        exact Or.inl (List.all_eq_true.mp hcond.1 c hcp)
      · rw [if_neg hcond] at h'; cases h'
  · rcases mem_splitOnChar '.' l c hc with hdot | ⟨p, hp, hcp⟩
    · exact Or.inr hdot
    · rw [hs] at hp
      simp only [List.mem_cons, List.mem_singleton, List.not_mem_nil, or_false] at hp
      have h' : (if (ip.all Char.isDigit && !ip.isEmpty
            && fp.all Char.isDigit && !fp.isEmpty) = true then
          some (Rat.divInt (Int.ofNat (natOfDigits ip * 10 ^ fp.length + natOfDigits fp))
            (Int.ofNat (10 ^ fp.length))) else none) = some q := h
      by_cases hcond :
          (ip.all Char.isDigit && !ip.isEmpty && fp.all Char.isDigit && !fp.isEmpty) = true
      · simp only [Bool.and_eq_true] at hcond
        rcases hp with rfl | rfl
        · exact Or.inl (List.all_eq_true.mp hcond.1.1.1 c hcp)
        · exact Or.inl (List.all_eq_true.mp hcond.1.2 c hcp)
      · rw [if_neg hcond] at h'; cases h'
  · cases h

theorem parseFloatL_chars (l : List Char) (q : ℚ) (h : parseFloatL l = some q) :
    ∀ c ∈ l, c.isDigit = true ∨ c = '.' ∨ c = '-' ∨ c = '+' := by
  intro c hc
  cases l with
  | nil => cases hc
  | cons x rest =>
    unfold parseFloatL at h
    by_cases hm : x = '-'
    · subst hm
      simp only [if_true] at h
      rcases List.mem_cons.mp hc with rfl | hcr
      · exact Or.inr (Or.inr (Or.inl rfl))
      · rcases ho : parseUnsignedL rest with _ | q2 <;> rw [ho] at h
        · cases h
        · rcases parseUnsignedL_chars rest q2 ho c hcr with hd | hd
          · exact Or.inl hd
          · exact Or.inr (Or.inl hd)
    · by_cases hpl : x = '+'
      · subst hpl
        simp only [hm, if_false, if_true] at h
        rcases List.mem_cons.mp hc with rfl | hcr
        · exact Or.inr (Or.inr (Or.inr rfl))
        · rcases parseUnsignedL_chars rest q h c hcr with hd | hd
          · exact Or.inl hd
          · exact Or.inr (Or.inl hd)
      · simp only [hm, hpl, if_false] at h
        rcases parseUnsignedL_chars _ q h c hc with hd | hd
        · exact Or.inl hd
        · exact Or.inr (Or.inl hd)

theorem isFloat_spaceFree (v : String) (h : isFloat v = true) : spaceFreeL v.data := by
  intro c hc
  unfold isFloat at h
  rcases ho : parseFloatL v.data with _ | q
  · rw [ho] at h; cases h
  · rcases parseFloatL_chars v.data q ho c hc with hd | rfl | rfl | rfl
    · exact isDigit_ne_space hd
    · decide
    · decide
    · decide

theorem isFloat_nlFree (v : String) (h : isFloat v = true) : nlFree v := by
  rw [nlFree, List.count_eq_zero]
  intro hc
  unfold isFloat at h
  rcases ho : parseFloatL v.data with _ | q
  · rw [ho] at h; cases h
  · rcases parseFloatL_chars v.data q ho _ hc with hd | hd | hd | hd
    · exact absurd rfl (isDigit_ne_nl hd)
    · cases hd
    · cases hd
    · cases hd

theorem isPrefixOf_self_append (p r : List Char) : p.isPrefixOf (p ++ r) = true := by
  induction p with
  | nil => simp
  | cons x xs ih => simp [List.isPrefixOf_cons₂, ih]

theorem nlFree_append (a b : String) (ha : nlFree a) (hb : nlFree b) : nlFree (a ++ b) := by
  unfold nlFree at *
  rw [String.data_append, List.count_append, ha, hb]

theorem nlFree_formatFixed (x : ℚ) (p : Nat) : nlFree (formatFixed x p) :=
  formatFixed_nlFree x p

theorem nlFree_empty : nlFree "" := by simp only [nlFree]; decide

theorem nlFree_semicolon : nlFree ";" := by simp only [nlFree]; decide

theorem nlFree_unitsSuffix (u : Option String) (hu : optNlFree u) : nlFree (unitsSuffix u) := by
  cases u with
  | none => exact nlFree_empty
  | some s =>
    by_cases ht : unitsTruthy (some s) = true
    · simpa [unitsSuffix, ht] using hu
    · simp only [unitsSuffix]
      rw [if_neg (by simpa using ht)]
      exact nlFree_empty

theorem nlFree_getD (u : Option String) (hu : optNlFree u) : nlFree (u.getD "") := by
  cases u with
  | none => exact nlFree_empty
  | some s => exact hu

theorem nlFree_perf_thresholds (w c : Option String) (hw : optNlFree w) (hc : optNlFree c) :
    nlFree (get_perf_thresholds w c) := by
  unfold get_perf_thresholds
  exact nlFree_append _ _ (nlFree_append _ _ (nlFree_append _ _ nlFree_semicolon
    (nlFree_getD w hw)) nlFree_semicolon) (nlFree_getD c hc)

theorem splitOnChar_three (v cmid qmid : List Char) (hv : spaceFreeL v)
    (hc : spaceFreeL cmid) (hq : spaceFreeL qmid) :
    splitOnChar ' ' (v ++ ' ' :: (cmid ++ ' ' :: qmid)) = [v, cmid, qmid] := by
  rw [splitOnChar_append ' ' v _ hv, splitOnChar_append ' ' cmid _ hc,
    splitOnChar_sepFree ' ' qmid hq]

theorem filter_nonEmpty_three (v c q : List Char) (hv : v ≠ []) (hc : c ≠ []) (hq : q ≠ []) :
    [v, c, q].filter (fun t => !t.isEmpty) = [v, c, q] := by
  cases v with
  | nil => exact absurd rfl hv
  | cons a as =>
    cases c with
    | nil => exact absurd rfl hc
    | cons b bs =>
      cases q with
      | nil => exact absurd rfl hq
      | cons d ds => rfl

theorem spaceFreeL_append (a b : List Char) (ha : spaceFreeL a) (hb : spaceFreeL b) :
    spaceFreeL (a ++ b) := by
  intro c hc
  rcases List.mem_append.mp hc with h | h
  · exact ha c h
  · exact hb c h

theorem spaceFree_getD (u : Option String) (hu : optSpaceFree u) : spaceFreeL (u.getD "").data := by
  cases u with
  | none => intro c hc; cases hc
  | some s => exact hu

theorem spaceFree_unitsSuffix (u : Option String) (hu : optSpaceFree u) :
    spaceFreeL (unitsSuffix u).data := by
  cases u with
  | none => intro c hc; cases hc
  | some s =>
    by_cases ht : unitsTruthy (some s) = true
    · simpa [unitsSuffix, ht] using hu
    · simp only [unitsSuffix]
      rw [if_neg (by simpa using ht)]
      intro c hc; cases hc

theorem spaceFree_perf_thresholds (w c : Option String) (hw : optSpaceFree w)
    (hc : optSpaceFree c) : spaceFreeL (get_perf_thresholds w c).data := by
  unfold get_perf_thresholds
  simp only [String.data_append]
  exact spaceFreeL_append _ _ (spaceFreeL_append _ _ (spaceFreeL_append _ _
    (by simp only [spaceFreeL]; decide) (spaceFree_getD w hw))
    (by simp only [spaceFreeL]; decide)) (spaceFree_getD c hc)

theorem connect_token_spaceFree (f : ℚ) (p : Nat) :
    spaceFreeL ("connect_time=" ++ formatFixed f p ++ "s").data := by
  simp only [String.data_append]
  exact spaceFreeL_append _ _ (spaceFreeL_append _ _ (by simp only [spaceFreeL]; decide)
    (formatFixed_spaceFree f p)) (by simp only [spaceFreeL]; decide)

theorem query_token_spaceFree (f : ℚ) (p : Nat) :
    spaceFreeL ("query_time=" ++ formatFixed f p ++ "s").data := by
  simp only [String.data_append]
  exact spaceFreeL_append _ _ (spaceFreeL_append _ _ (by simp only [spaceFreeL]; decide)
    (formatFixed_spaceFree f p)) (by simp only [spaceFreeL]; decide)

theorem connect_token_ne_nil (f : ℚ) (p : Nat) :
    ("connect_time=" ++ formatFixed f p ++ "s").data ≠ [] := by
  simp [String.data_append]

theorem query_token_ne_nil (f : ℚ) (p : Nat) :
    ("query_time=" ++ formatFixed f p ++ "s").data ≠ [] := by
  simp [String.data_append]

theorem output_perfdata_msg_def (cfg : PerfConfig) (msg0 value : String) (ct qt : ℚ) :
    (output_perfdata cfg msg0 value ct qt).msg =
      (if cfg.graph then
        (if isFloat value then
          msg0 ++ " | " ++ ("value=" ++ value) ++ unitsSuffix cfg.units
            ++ get_perf_thresholds cfg.warnSpec cfg.critSpec
        else msg0 ++ " | " ++ "value=NaN")
      else msg0 ++ " | ")
      ++ (" connect_time=" ++ formatFixed ct cfg.precision
        ++ "s query_time=" ++ formatFixed qt cfg.precision ++ "s") := rfl

theorem output_perfdata_status_def (cfg : PerfConfig) (msg0 value : String) (ct qt : ℚ) :
    (output_perfdata cfg msg0 value ct qt).status =
      (if isFloat value then check_thresholds cfg.warnSpec cfg.critSpec (parseFloatD value)
       else Status.OK) := rfl

theorem sgn_natChars_dotFree (n : ℤ) (q : Nat) :
    ∀ c ∈ ((if n < 0 then ['-'] else []) ++ natChars q), c ≠ '.' := by
  intro c hcm
  rcases List.mem_append.mp hcm with hs | hn
  · split at hs
    · simp only [List.mem_singleton] at hs
      subst hs; decide
    · cases hs
  · exact isDigit_ne_dot (natCharsAux_digits _ _ _ hn)

theorem fracDigits_dotFree (k m : Nat) : ∀ c ∈ fracDigits k m, c ≠ '.' :=
  fun c hc => isDigit_ne_dot (fracDigits_digits k m c hc)

theorem formatFixed_decimalLen (x : ℚ) (p : Nat) (hp : 1 ≤ p) :
    decimalLen (formatFixed x p) = p := by
  have hp0 : ¬(p = 0) := by omega
  have hmk : (formatFixed x p).data
      = ((if Int.fdiv (2 * x.num * Int.ofNat (10 ^ p) + x.den) (2 * x.den) < 0 then
            ['-'] else [])
          ++ natChars ((Int.fdiv (2 * x.num * Int.ofNat (10 ^ p) + x.den)
              (2 * x.den)).natAbs / 10 ^ p))
        ++ '.' :: fracDigits p ((Int.fdiv (2 * x.num * Int.ofNat (10 ^ p) + x.den)
            (2 * x.den)).natAbs % 10 ^ p) := by
    simp only [formatFixed]
    rw [if_neg hp0]
  unfold decimalLen
  rw [hmk, splitOnChar_append '.' _ _ (sgn_natChars_dotFree _ _),
    splitOnChar_sepFree '.' _ (fracDigits_dotFree _ _)]
  exact fracDigits_length p _

theorem check_cell_connClosed (t r c : String) (e : Option String)
    (rs : String → String → Bool) (tryRes : TryResult) :
    (check_cell t r c e rs tryRes).connClosed = queryCompleted tryRes := by
  cases tryRes with
  | disabled => rfl
  | transportError e2 => rfl
  | hbaseError m =>
    simp only [check_cell]
    split_ifs <;> rfl
  | cellsReturned cv =>
    cases cv with
    | nonList => rfl
    | list cells =>
      rcases cells with _ | ⟨v, _ | ⟨w, rest⟩⟩
      · rfl
      · cases e with
        | none => rfl
        | some pat =>
          simp only [check_cell]
          split_ifs <;> rfl
      · rfl

theorem run_connClosed (listMode : Bool) (t r c : String) (e : Option String)
    (rs : String → String → Bool) (cfg : PerfConfig) (ct qt : ℚ) (env : RunEnv) :
    (run listMode t r c e rs cfg ct qt env).connClosed
      = (connectOk env.connectRes && !listMode && queryCompleted env.tryRes) := by
  obtain ⟨cr, tr, tryR⟩ := env
  cases cr with
  | err e2 => rfl
  | ok =>
    cases listMode with
    | true => cases tr <;> rfl
    | false =>
      have hcc := check_cell_connClosed t r c e rs tryR
      rcases hres : check_cell t r c e rs tryR with ⟨o, closed⟩
      rw [hres] at hcc
      cases o <;> simpa [run, hres, connectOk] using hcc

theorem nlFree_cell_info (t r c : String) (ht : nlFree t) (hr : nlFree r) (hc : nlFree c) :
    nlFree (cell_info t r c) := by
  unfold cell_info
  simp only [nlFree] at ht hr hc ⊢
  simp [String.data_append, List.count_append, ht, hr, hc]

theorem check_cell_outcome_nlFree (t r c : String) (e : Option String)
    (rs : String → String → Bool) (tryRes : TryResult)
    (ht : nlFree t) (hr : nlFree r) (hc : nlFree c) (he : optNlFree e)
    (htr : tryNlFree tryRes) :
    outcomeNlFree (check_cell t r c e rs tryRes).outcome := by
  have hinfo := nlFree_cell_info t r c ht hr hc
  cases tryRes with
  | disabled =>
    show nlFree _
    simp only [nlFree] at ht ⊢
    simp [String.data_append, List.count_append, ht]
  | transportError e2 => exact htr
  | hbaseError m =>
    simp only [check_cell]
    split_ifs with h1 h2
    · show nlFree _
      simp only [nlFree] at ht ⊢
      simp [String.data_append, List.count_append, ht]
    · show nlFree _
      simp only [nlFree] at hc ⊢
      simp [String.data_append, List.count_append, hc]
    · exact htr
  | cellsReturned cv =>
    cases cv with
    | nonList =>
      show nlFree _
      simp only [nlFree]
      decide
    | list cells =>
      have htr' : ∀ v ∈ cells, nlFree v := htr
      rcases cells with _ | ⟨v, _ | ⟨w, rest⟩⟩
      · show nlFree _
        simp only [nlFree] at hinfo ⊢
        simp [String.data_append, List.count_append, hinfo]
      · have hv : nlFree v := htr' v (List.mem_singleton_self v)
        have hmsg : nlFree ("cell value = '" ++ v ++ "' for " ++ cell_info t r c) := by
          simp only [nlFree] at hv hinfo ⊢
          simp [String.data_append, List.count_append, hv, hinfo]
        cases e with
        | none => exact ⟨hv, hmsg⟩
        | some pat =>
          simp only [check_cell]
          split_ifs with h1 h2
          · exact ⟨hv, hmsg⟩
          · show nlFree _
            have hp : nlFree pat := he
            simp only [nlFree] at hv hinfo hp ⊢
            simp [String.data_append, List.count_append, hv, hinfo, hp]
          · exact ⟨hv, hmsg⟩
      · show nlFree _
        simp only [nlFree]
        decide

theorem output_perfdata_msg_nlFree (cfg : PerfConfig) (msg0 value : String) (ct qt : ℚ)
    (hm : nlFree msg0) (hv : nlFree value) (hu : optNlFree cfg.units)
    (hw : optNlFree cfg.warnSpec) (hc : optNlFree cfg.critSpec) :
    nlFree (output_perfdata cfg msg0 value ct qt).msg := by
  rw [output_perfdata_msg_def]
  have hus := nlFree_unitsSuffix _ hu
  have hth := nlFree_perf_thresholds _ _ hw hc
  have hf1 := nlFree_formatFixed ct cfg.precision
  have hf2 := nlFree_formatFixed qt cfg.precision
  simp only [nlFree] at hm hv hus hth hf1 hf2 ⊢
  by_cases hg : cfg.graph = true <;> by_cases hF : isFloat value = true <;>
    simp [hg, hF, String.data_append, List.count_append, hm, hv, hus, hth, hf1, hf2]

theorem lineCount_statusLine (st : Status) (m : String) (hm : nlFree m) :
    lineCount (statusLine st m) = 1 := by
  simp only [nlFree] at hm
  cases st <;>
    (simp only [statusLine, lineCount, statusName]
     simp [String.data_append, List.count_append, hm])

theorem joinNl_count (t : String) (ts : List String) (h : ∀ s ∈ t :: ts, nlFree s) :
    (joinNl (t :: ts)).data.count '\n' = ts.length := by
  induction ts generalizing t with
  | nil => exact h t (List.mem_singleton_self t)
  | cons u us ih =>
    have ht : nlFree t := h t (List.mem_cons_self t _)
    have hrest : ∀ s ∈ u :: us, nlFree s := fun s hs => h s (List.mem_cons_of_mem _ hs)
    have hu2 := ih u hrest
    simp only [nlFree] at ht
    simp only [joinNl]
    rw [String.data_append, String.data_append, List.count_append, List.count_append, ht, hu2]
    simp [List.length_cons]
    omega

theorem run_lineCount_check (t r c : String) (e : Option String) (rs : String → String → Bool)
    (cfg : PerfConfig) (ct qt : ℚ) (env : RunEnv)
    (ht : nlFree t) (hr : nlFree r) (hc : nlFree c) (he : optNlFree e)
    (hu : optNlFree cfg.units) (hw : optNlFree cfg.warnSpec) (hcs : optNlFree cfg.critSpec)
    (henv : envNlFree env) :
    lineCount (run false t r c e rs cfg ct qt env).stdout = 1 := by
  obtain ⟨cr, tr, tryR⟩ := env
  obtain ⟨hcr, htr⟩ := henv
  cases cr with
  | err e2 => exact lineCount_statusLine Status.CRITICAL e2 hcr
  | ok =>
    have hout := check_cell_outcome_nlFree t r c e rs tryR ht hr hc he htr
    rcases hres : check_cell t r c e rs tryR with ⟨o, closed⟩
    rw [hres] at hout
    cases o with
    | exited st m =>
      have hm : nlFree m := hout
      simp only [run, hres, Bool.false_eq_true, if_false]
      exact lineCount_statusLine st m hm
    | returned v m =>
      obtain ⟨hv, hm⟩ := hout
      simp only [run, hres, Bool.false_eq_true, if_false]
      exact lineCount_statusLine _ _ (output_perfdata_msg_nlFree cfg m v ct qt hm hv hu hw hcs)

theorem run_lineCount_list (t r c : String) (e : Option String) (rs : String → String → Bool)
    (cfg : PerfConfig) (ct qt : ℚ) (tables : List String) (tryR : TryResult)
    (htb : ∀ s ∈ tables, nlFree s) :
    lineCount (run true t r c e rs cfg ct qt ⟨.ok, .ok tables, tryR⟩).stdout
      = 2 + max 1 tables.length := by
  cases tables with
  | nil =>
    show lineCount ("HBase Tables:\n\n" ++ joinNl [] ++ "\n") = 2 + max 1 ([] : List String).length
    decide
  | cons tbl tbls =>
    show lineCount ("HBase Tables:\n\n" ++ joinNl (tbl :: tbls) ++ "\n")
      = 2 + max 1 (tbl :: tbls).length
    have hj := joinNl_count tbl tbls htb
    simp only [lineCount]
    rw [String.data_append, String.data_append, List.count_append, List.count_append, hj]
    simp [List.length_cons]
    omega

/-! ### The claims -/

/-- C1: for every check run in which the query returns an empty sequence of
cells, the check terminates with status CRITICAL and a message stating that
the row/column combination was not found. -/
theorem C1_empty_cells_critical (t r c : String) (e : Option String)
    (rs : String → String → Bool) :
    check_cell t r c e rs (.cellsReturned (.list [])) =
      ⟨.exited .CRITICAL ("no cell value found in " ++ cell_info t r c
        ++ ", does row / column family combination exist?"), true⟩ := rfl

/-- C2 counterexample: on an empty cell list the check exits CRITICAL — not
UNKNOWN — and its message does not carry the support-report pointer. -/
theorem C2_counterexample_empty_not_unknown :
    (check_cell "t" "r" "c" none (fun _ _ => true) (.cellsReturned (.list []))).outcome
      = .exited .CRITICAL ("no cell value found in " ++ cell_info "t" "r" "c"
          ++ ", does row / column family combination exist?")
    ∧ Status.CRITICAL ≠ Status.UNKNOWN
    ∧ containsSub ("no cell value found in " ++ cell_info "t" "r" "c"
        ++ ", does row / column family combination exist?") support_msg_api = false :=
  ⟨rfl, by decide, by decide⟩

/-- C2 (amended): for every check run in which the query returns an empty
sequence of cells, the check terminates with status CRITICAL and the
not-found message, without a support-report pointer; the UNKNOWN exit with a
support-report pointer is reserved for ambiguous or malformed results. -/
theorem C2_amended_empty_critical (e : Option String) (rs : String → String → Bool) :
    check_cell "tab" "row" "col" e rs (.cellsReturned (.list []))
      = ⟨.exited .CRITICAL ("no cell value found in " ++ cell_info "tab" "row" "col"
          ++ ", does row / column family combination exist?"), true⟩
    ∧ containsSub ("no cell value found in " ++ cell_info "tab" "row" "col"
        ++ ", does row / column family combination exist?") support_msg_api = false :=
  ⟨rfl, by decide⟩

/-- C3: for every check run in which the query returns more than one cell,
the check terminates with status UNKNOWN and a message containing the
support-report pointer. -/
theorem C3_multiple_cells_unknown (t r c : String) (e : Option String)
    (rs : String → String → Bool) (x y : String) (rest : List String) :
    check_cell t r c e rs (.cellsReturned (.list (x :: y :: rest)))
      = ⟨.exited .UNKNOWN ("more than one cell returned! " ++ support_msg_api), true⟩
    ∧ containsSub ("more than one cell returned! " ++ support_msg_api) support_msg_api = true :=
  ⟨rfl, by decide⟩

/-- C4: when an expected pattern was supplied (nonempty, per Python
truthiness) and the single returned cell value does not match it under the
unanchored `re.search` (modelled by the oracle `rs`), the check terminates
CRITICAL with a message carrying both the actual value and the expected
pattern; when the value matches, validation passes and the run proceeds. -/
theorem C4_pattern_check (t r c pat v : String) (rs : String → String → Bool)
    (hpat : pat ≠ "") :
    (rs pat v = false →
      check_cell t r c (some pat) rs (.cellsReturned (.list [v]))
        = ⟨.exited .CRITICAL ("cell value '" ++ v ++ "' (expected regex '" ++ pat
            ++ "') for " ++ cell_info t r c), true⟩)
    ∧ (rs pat v = true →
      check_cell t r c (some pat) rs (.cellsReturned (.list [v]))
        = ⟨.returned v ("cell value = '" ++ v ++ "' for " ++ cell_info t r c), true⟩) := by
  constructor <;> intro h <;> simp [check_cell, h, hpat]

theorem C4_pattern_check_witness :
    ((("A" : String) ≠ "")
      ∧ ((fun (p v : String) => p == v) "A" "B" = false →
          check_cell "t" "r" "c" (some "A") (fun p v => p == v) (.cellsReturned (.list ["B"]))
            = ⟨.exited .CRITICAL ("cell value '" ++ "B" ++ "' (expected regex '" ++ "A"
                ++ "') for " ++ cell_info "t" "r" "c"), true⟩)
      ∧ ((fun (p v : String) => p == v) "A" "B" = true →
          check_cell "t" "r" "c" (some "A") (fun p v => p == v) (.cellsReturned (.list ["B"]))
            = ⟨.returned "B" ("cell value = '" ++ "B" ++ "' for " ++ cell_info "t" "r" "c"),
                true⟩))
    ∧ (((fun (p v : String) => p == v) "A" "A" = true →
        check_cell "t" "r" "c" (some "A") (fun p v => p == v) (.cellsReturned (.list ["A"]))
          = ⟨.returned "A" ("cell value = '" ++ "A" ++ "' for " ++ cell_info "t" "r" "c"),
              true⟩)) :=
  ⟨⟨by decide, C4_pattern_check "t" "r" "c" "A" "B" (fun p v => p == v) (by decide)⟩,
    (C4_pattern_check "t" "r" "c" "A" "A" (fun p v => p == v) (by decide)).2⟩

/-- C5: for every check run that reaches perfdata output with graphing
enabled, the perfdata section consists of exactly three tokens — one value
token (`value=` followed by the raw value when numeric, the literal
`value=NaN` otherwise) and the two timing tokens — so exactly one value
token is emitted and the field count is the same whether or not the value is
numeric. -/
theorem C5_graph_one_value_token (cfg : PerfConfig) (msg0 value : String) (ct qt : ℚ)
    (hg : cfg.graph = true) (hu : optSpaceFree cfg.units)
    (hw : optSpaceFree cfg.warnSpec) (hc : optSpaceFree cfg.critSpec) :
    ∃ perf : String,
      (output_perfdata cfg msg0 value ct qt).msg = msg0 ++ " | " ++ perf
      ∧ perfTokens perf =
          [(if isFloat value then
              "value=" ++ value ++ unitsSuffix cfg.units
                ++ get_perf_thresholds cfg.warnSpec cfg.critSpec
            else "value=NaN").data,
            ("connect_time=" ++ formatFixed ct cfg.precision ++ "s").data,
            ("query_time=" ++ formatFixed qt cfg.precision ++ "s").data]
      ∧ (perfTokens perf).length = 3
      ∧ countValueTokens perf = 1 := by
  have e1 : (" connect_time=" : String).data = ' ' :: ("connect_time=" : String).data := rfl
  have e2 : ("s query_time=" : String).data = 's' :: ' ' :: ("query_time=" : String).data := rfl
  have e3 : ("s" : String).data = ['s'] := rfl
  set p := cfg.precision with hp
  set f1 := formatFixed ct p with hf1
  set f2 := formatFixed qt p with hf2
  set vtok := (if isFloat value then
      "value=" ++ value ++ unitsSuffix cfg.units
        ++ get_perf_thresholds cfg.warnSpec cfg.critSpec
    else "value=NaN") with hvtok
  have hdata : (vtok ++ " connect_time=" ++ f1 ++ "s query_time=" ++ f2 ++ "s").data
      = vtok.data ++ ' ' :: (("connect_time=" ++ f1 ++ "s").data
        ++ ' ' :: ("query_time=" ++ f2 ++ "s").data) := by
    simp [String.data_append, e1, e2, e3, List.append_assoc]
  have hvsf : spaceFreeL vtok.data := by
    by_cases hF : isFloat value = true
    · rw [hvtok, if_pos hF]
      simp only [String.data_append]
      exact spaceFreeL_append _ _ (spaceFreeL_append _ _ (spaceFreeL_append _ _
        (by simp only [spaceFreeL]; decide) (isFloat_spaceFree value hF))
        (spaceFree_unitsSuffix _ hu)) (spaceFree_perf_thresholds _ _ hw hc)
    · rw [hvtok, if_neg hF]
      simp only [spaceFreeL]; decide
  have hvne : vtok.data ≠ [] := by
    by_cases hF : isFloat value = true
    · rw [hvtok, if_pos hF]; simp [String.data_append]
    · rw [hvtok, if_neg hF]; decide
  have hvpre : "value=".data.isPrefixOf vtok.data = true := by
    by_cases hF : isFloat value = true
    · have hv : vtok.data = "value=".data
          ++ (value.data ++ ((unitsSuffix cfg.units).data
            ++ (get_perf_thresholds cfg.warnSpec cfg.critSpec).data)) := by
        rw [hvtok, if_pos hF]; simp [String.data_append, List.append_assoc]
      rw [hv]; exact isPrefixOf_self_append _ _
    · rw [hvtok, if_neg hF]; decide
  have hcfalse : "value=".data.isPrefixOf (("connect_time=" ++ f1 ++ "s").data) = false := by
    have h : ("connect_time=" ++ f1 ++ "s").data
        = ("connect_time=" : String).data ++ (f1.data ++ "s".data) := by
      simp [String.data_append, List.append_assoc]
    rw [h]; rfl
  have hqfalse : "value=".data.isPrefixOf (("query_time=" ++ f2 ++ "s").data) = false := by
    have h : ("query_time=" ++ f2 ++ "s").data
        = ("query_time=" : String).data ++ (f2.data ++ "s".data) := by
      simp [String.data_append, List.append_assoc]
    rw [h]; rfl
  have hsplit : splitOnChar ' ' ((vtok ++ " connect_time=" ++ f1 ++ "s query_time="
      ++ f2 ++ "s").data)
      = [vtok.data, ("connect_time=" ++ f1 ++ "s").data, ("query_time=" ++ f2 ++ "s").data] := by
    rw [hdata]
    exact splitOnChar_three _ _ _ hvsf (connect_token_spaceFree ct p) (query_token_spaceFree qt p)
  have htokens : perfTokens (vtok ++ " connect_time=" ++ f1 ++ "s query_time=" ++ f2 ++ "s")
      = [vtok.data, ("connect_time=" ++ f1 ++ "s").data, ("query_time=" ++ f2 ++ "s").data] := by
    unfold perfTokens
    rw [hsplit]
    exact filter_nonEmpty_three _ _ _ hvne (connect_token_ne_nil ct p) (query_token_ne_nil qt p)
  have hcount : countValueTokens (vtok ++ " connect_time=" ++ f1 ++ "s query_time="
      ++ f2 ++ "s") = 1 := by
    unfold countValueTokens
    rw [hsplit, List.filter_cons_of_pos hvpre, List.filter_cons_of_neg (by simp [hcfalse]),
      List.filter_cons_of_neg (by simp [hqfalse])]
    rfl
  refine ⟨vtok ++ " connect_time=" ++ f1 ++ "s query_time=" ++ f2 ++ "s", ?_, htokens,
    by rw [htokens]; rfl, hcount⟩
  rw [output_perfdata_msg_def, hg]
  by_cases hF : isFloat value = true
  · rw [if_pos rfl, if_pos hF, hvtok, if_pos hF]
    apply strExt
    simp [String.data_append, List.append_assoc]
  · rw [if_pos rfl, if_neg hF, hvtok, if_neg hF]
    apply strExt
    simp [String.data_append, List.append_assoc]

theorem C5_graph_one_value_token_witness :
    ((⟨true, none, 4, none, none⟩ : PerfConfig).graph = true)
    ∧ optSpaceFree (none : Option String)
    ∧ (∃ perf : String,
        (output_perfdata ⟨true, none, 4, none, none⟩ "m" "42.5" 0 0).msg
          = "m" ++ " | " ++ perf
        ∧ perfTokens perf =
            [(if isFloat "42.5" then
                "value=" ++ "42.5" ++ unitsSuffix none ++ get_perf_thresholds none none
              else "value=NaN").data,
              ("connect_time=" ++ formatFixed 0 4 ++ "s").data,
              ("query_time=" ++ formatFixed 0 4 ++ "s").data]
        ∧ (perfTokens perf).length = 3
        ∧ countValueTokens perf = 1) :=
  ⟨rfl, trivial,
    C5_graph_one_value_token ⟨true, none, 4, none, none⟩ "m" "42.5" 0 0 rfl
      trivial trivial trivial⟩

/-- C6 counterexample: with precision 4 the graphed cell value 42.5 is
emitted verbatim as `value=42.5` — one decimal digit, not the four the claim
requires — while the timing fields do get four. -/
theorem C6_counterexample_value_verbatim :
    (output_perfdata ⟨true, none, 4, none, none⟩ "m" "42.5" 0 0).msg
      = "m | value=42.5;; connect_time=0.0000s query_time=0.0000s"
    ∧ decimalLen "42.5" = 1
    ∧ (1 : Nat) ≠ 4 :=
  ⟨by decide, by decide, by decide⟩

/-- C6 (amended): the two timing fields are always rendered in seconds with
exactly `precision` decimal digits and suffixed `s`; the graphed cell value,
by contrast, is emitted verbatim (`value=` followed by the raw string), not
re-rendered at `precision`. -/
theorem C6_amended_timing_precision (cfg : PerfConfig) (msg0 value : String) (ct qt : ℚ)
    (hp : 1 ≤ cfg.precision) :
    ∃ pre : String,
      (output_perfdata cfg msg0 value ct qt).msg
        = pre ++ (" connect_time=" ++ formatFixed ct cfg.precision
          ++ "s query_time=" ++ formatFixed qt cfg.precision ++ "s")
      ∧ decimalLen (formatFixed ct cfg.precision) = cfg.precision
      ∧ decimalLen (formatFixed qt cfg.precision) = cfg.precision
      ∧ (cfg.graph = true → isFloat value = true →
          pre = msg0 ++ " | " ++ ("value=" ++ value) ++ unitsSuffix cfg.units
            ++ get_perf_thresholds cfg.warnSpec cfg.critSpec) := by
  refine ⟨(if cfg.graph then
      (if isFloat value then
        msg0 ++ " | " ++ ("value=" ++ value) ++ unitsSuffix cfg.units
          ++ get_perf_thresholds cfg.warnSpec cfg.critSpec
      else msg0 ++ " | " ++ "value=NaN")
    else msg0 ++ " | "),
    output_perfdata_msg_def cfg msg0 value ct qt,
    formatFixed_decimalLen ct _ hp, formatFixed_decimalLen qt _ hp, ?_⟩
  intro hg hF
  rw [hg, if_pos rfl, if_pos hF]

theorem C6_amended_timing_precision_witness :
    1 ≤ (⟨false, none, 4, none, none⟩ : PerfConfig).precision
    ∧ (∃ pre : String,
        (output_perfdata ⟨false, none, 4, none, none⟩ "m" "x" 0 0).msg
          = pre ++ (" connect_time=" ++ formatFixed 0 4
            ++ "s query_time=" ++ formatFixed 0 4 ++ "s")
        ∧ decimalLen (formatFixed 0 4) = 4
        ∧ decimalLen (formatFixed 0 4) = 4
        ∧ ((⟨false, none, 4, none, none⟩ : PerfConfig).graph = true → isFloat "x" = true →
            pre = "m" ++ " | " ++ ("value=" ++ "x") ++ unitsSuffix none
              ++ get_perf_thresholds none none)) :=
  ⟨by decide, C6_amended_timing_precision ⟨false, none, 4, none, none⟩ "m" "x" 0 0 (by decide)⟩

/-- C7 counterexample: a list-mode invocation acquires a connection handle
and exits without closing it, and so does the error exit on a disabled
table — contradicting "released on every exit path". -/
theorem C7_counterexample_no_close :
    (run true "t" "r" "c" none (fun _ _ => true) ⟨false, none, 4, none, none⟩ 0 0
        ⟨.ok, .ok ["t1"], .cellsReturned (.list ["v"])⟩).connClosed = false
    ∧ (run false "t" "r" "c" none (fun _ _ => true) ⟨false, none, 4, none, none⟩ 0 0
        ⟨.ok, .ok [], .disabled⟩).connClosed = false
    ∧ (run false "t" "r" "c" none (fun _ _ => true) ⟨false, none, 4, none, none⟩ 0 0
        ⟨.ok, .ok [], .disabled⟩).status = Status.CRITICAL :=
  ⟨rfl, rfl, rfl⟩

/-- C7 (amended): the connection handle is closed exactly on those runs in
which the cells query completed (line 179 of the script) — that is, a
connection was acquired, list mode was off, and the query returned; every
other exit path (connect failure, list mode, disabled table, HBase or
transport exception) terminates without an explicit close. -/
theorem C7_amended_close_iff_query_completed (listMode : Bool) (t r c : String)
    (e : Option String) (rs : String → String → Bool) (cfg : PerfConfig) (ct qt : ℚ)
    (env : RunEnv) :
    (run listMode t r c e rs cfg ct qt env).connClosed
      = (connectOk env.connectRes && !listMode && queryCompleted env.tryRes) :=
  run_connClosed listMode t r c e rs cfg ct qt env

/-- C8: for a single numeric cell value 95, threshold evaluation with a
critical spec of "90:" (missing high bound defaults to +∞, acceptable
interval [90,∞)) yields OK, and with critical spec "0:90" yields CRITICAL
(95 exceeds the acceptable upper bound 90). -/
theorem C8_threshold_scenario (msg0 : String) (ct qt : ℚ) :
    (output_perfdata ⟨false, none, 4, none, some "90:"⟩ msg0 "95" ct qt).status = Status.OK
    ∧ (output_perfdata ⟨false, none, 4, none, some "0:90"⟩ msg0 "95" ct qt).status
        = Status.CRITICAL := by
  constructor <;> rw [output_perfdata_status_def] <;> decide

/-- C9 counterexample: a list-mode invocation with two tables prints a
four-line listing to standard output, not one line. -/
theorem C9_counterexample_list_mode_multiline :
    lineCount (run true "t" "r" "c" none (fun _ _ => true) ⟨false, none, 4, none, none⟩ 0 0
      ⟨.ok, .ok ["t1", "t2"], .cellsReturned (.list [])⟩).stdout = 4
    ∧ (4 : Nat) ≠ 1 :=
  ⟨by decide, by decide⟩

/-- C9 (amended): a non-list-mode invocation prints exactly one line to
standard output wherever it succeeds or fails (given the collaborator
strings are newline-free); list mode instead prints a multi-line listing —
a header line, a blank line, and one line per table (a trailing blank line
when there are no tables), i.e. 2 + max 1 (number of tables) lines, for
every table list including the empty one. -/
theorem C9_amended_line_counts (t r c : String) (e : Option String)
    (rs : String → String → Bool) (cfg : PerfConfig) (ct qt : ℚ) (env : RunEnv)
    (tables : List String) (tryR : TryResult)
    (ht : nlFree t) (hr : nlFree r) (hc : nlFree c) (he : optNlFree e)
    (hu : optNlFree cfg.units) (hw : optNlFree cfg.warnSpec) (hcs : optNlFree cfg.critSpec)
    (henv : envNlFree env) (htb : ∀ s ∈ tables, nlFree s) :
    lineCount (run false t r c e rs cfg ct qt env).stdout = 1
    ∧ lineCount (run true t r c e rs cfg ct qt ⟨.ok, .ok tables, tryR⟩).stdout
        = 2 + max 1 tables.length :=
  ⟨run_lineCount_check t r c e rs cfg ct qt env ht hr hc he hu hw hcs henv,
    run_lineCount_list t r c e rs cfg ct qt tables tryR htb⟩

theorem C9_amended_line_counts_witness :
    nlFree "t" ∧ nlFree "r" ∧ nlFree "c"
    ∧ optNlFree (none : Option String)
    ∧ envNlFree ⟨.ok, .ok [], .cellsReturned (.list ["9"])⟩
    ∧ (∀ s ∈ ["t1", "t2"], nlFree s)
    ∧ (∀ s ∈ ([] : List String), nlFree s)
    ∧ (lineCount (run false "t" "r" "c" none (fun _ _ => true)
          ⟨false, none, 4, none, none⟩ 0 0 ⟨.ok, .ok [], .cellsReturned (.list ["9"])⟩).stdout = 1
      ∧ lineCount (run true "t" "r" "c" none (fun _ _ => true)
          ⟨false, none, 4, none, none⟩ 0 0
          ⟨.ok, .ok ["t1", "t2"], .disabled⟩).stdout
          = 2 + max 1 (["t1", "t2"] : List String).length)
    ∧ lineCount (run true "t" "r" "c" none (fun _ _ => true)
        ⟨false, none, 4, none, none⟩ 0 0
        ⟨.ok, .ok [], .disabled⟩).stdout
        = 2 + max 1 ([] : List String).length := by
  have h9 : ∀ s ∈ (["9"] : List String), nlFree s := by
    intro s hs
    simp only [List.mem_singleton] at hs
    subst hs
    simp only [nlFree]; decide
  have htb : ∀ s ∈ (["t1", "t2"] : List String), nlFree s := by
    intro s hs
    simp only [List.mem_cons, List.mem_singleton, List.not_mem_nil, or_false] at hs
    rcases hs with rfl | rfl <;> (simp only [nlFree]; decide)
  have hnil : ∀ s ∈ ([] : List String), nlFree s := by
    intro s hs
    cases hs
  refine ⟨by simp only [nlFree]; decide, by simp only [nlFree]; decide,
    by simp only [nlFree]; decide, trivial, ⟨trivial, h9⟩, htb, hnil, ?_, ?_⟩
  · exact C9_amended_line_counts "t" "r" "c" none (fun _ _ => true)
      ⟨false, none, 4, none, none⟩ 0 0 ⟨.ok, .ok [], .cellsReturned (.list ["9"])⟩
      ["t1", "t2"] .disabled
      (by simp only [nlFree]; decide) (by simp only [nlFree]; decide)
      (by simp only [nlFree]; decide) trivial trivial trivial trivial
      ⟨trivial, h9⟩ htb
  · exact (C9_amended_line_counts "t" "r" "c" none (fun _ _ => true)
      ⟨false, none, 4, none, none⟩ 0 0 ⟨.ok, .ok [], .cellsReturned (.list ["9"])⟩
      [] .disabled
      (by simp only [nlFree]; decide) (by simp only [nlFree]; decide)
      (by simp only [nlFree]; decide) trivial trivial trivial trivial
      ⟨trivial, h9⟩ hnil).2

/-- C10: an empty expected pattern supplied at the interface is treated
exactly like no pattern (the guard tests Python truthiness, not presence),
so an empty pattern can never produce a pattern-mismatch failure, whatever
the matcher does. -/
theorem C10_empty_pattern_skipped (t r c v : String) (rs : String → String → Bool) :
    check_cell t r c (some "") rs (.cellsReturned (.list [v]))
      = check_cell t r c none rs (.cellsReturned (.list [v]))
    ∧ check_cell t r c (some "") rs (.cellsReturned (.list [v]))
      = ⟨.returned v ("cell value = '" ++ v ++ "' for " ++ cell_info t r c), true⟩ :=
  ⟨rfl, rfl⟩

end CheckHBaseCell

